import Mathlib

/-!
Verification development for the meeting voice agent integration layer
(`services/meeting_voice_agent/main.py` and
`services/meeting_voice_agent/pcc_tools.py`).

The Python code manipulates JSON-like values (dicts, lists, strings,
numbers, booleans, `None`).  We embed these as the inductive type `Json`
below; numeric JSON values are modelled as integers, and Python strings as
Lean strings (operated on through their character lists so that proofs can
compute).  Python `dict`s are association lists whose lookup takes the
first matching key.  Python's `None` is `Json.null`; `dict.get(k)` on a
missing key therefore yields `Json.null`, exactly conflating "absent" and
"present with value None" the way Python's `_get_param` helper does.

Network I/O is modelled by oracles: a function from the request a client
method would issue (`NetCall`) to the `Except`-typed response the HTTP
layer would deliver.  Tool callbacks additionally return the list of
`NetCall`s they actually issued, which lets theorems speak about "no
network call is attempted".  Clock reads (`_iso_now`) are passed in as
string parameters.
-/

inductive Json where
  | null : Json
  | bool (b : Bool) : Json
  | int (n : Int) : Json
  | str (s : String) : Json
  | arr (xs : List Json) : Json
  | obj (kvs : List (String × Json)) : Json

/-- Python `str.strip()` on a character list: drop whitespace from both ends. -/
def pyStripList (cs : List Char) : List Char :=
  ((cs.dropWhile Char.isWhitespace).reverse.dropWhile Char.isWhitespace).reverse

/-- Python `str.strip()`. -/
def pyStrip (s : String) : String := String.mk (pyStripList s.data)

/-- Python `str.rstrip()`: drop trailing whitespace. -/
def pyRstrip (s : String) : String :=
  String.mk ((s.data.reverse.dropWhile Char.isWhitespace).reverse)

/-- Python `str.lower()` (ASCII case folding suffices for this code base). -/
def pyLower (s : String) : String := String.mk (s.data.map Char.toLower)

/-- Python `len(s)` for strings: number of characters. -/
def pyLen (s : String) : Nat := s.data.length

/-- Python `s[:n]` for strings. -/
def pyTake (s : String) (n : Nat) : String := String.mk (s.data.take n)

/-- Contiguous-sublist test on character lists (Python substring search). -/
def listInfix (needle : List Char) : List Char → Bool
  | [] => needle.isEmpty
  | c :: rest => needle.isPrefixOf (c :: rest) || listInfix needle rest

/-- Python `needle in haystack` for strings: substring containment. -/
def pyIn (needle haystack : String) : Bool := listInfix needle.data haystack.data

/-- Python `s.endswith(t)`. -/
def pyEndsWith (s t : String) : Bool := t.data.isSuffixOf s.data

/-- A single-quote character, used when rendering Python `repr` output. -/
def squote : String := String.singleton (Char.ofNat 39)

/-- First-match association-list lookup: Python `dict` access where the
value distinguishes a missing key (`none`) from a present one. -/
def lookupKey (kvs : List (String × Json)) (k : String) : Option Json :=
  (kvs.find? (fun kv => kv.1 == k)).map (fun kv => kv.2)

/-- Python `d.get(k)`: `None` when the key is missing. -/
def pyGet (kvs : List (String × Json)) (k : String) : Json :=
  (lookupKey kvs k).getD Json.null

/-- Python `d.get(k, default)`: the default only when the key is missing. -/
def pyGetD (kvs : List (String × Json)) (k : String) (d : Json) : Json :=
  (lookupKey kvs k).getD d

def Json.isArr : Json → Bool
  | .arr _ => true
  | _ => false

def Json.isObj : Json → Bool
  | .obj _ => true
  | _ => false

/-- Python `repr()` restricted to the JSON-like values of the model. -/
def pyRepr : Json → String
  | .null => "None"
  | .bool true => "True"
  | .bool false => "False"
  | .int n => toString n
  | .str s => squote ++ s ++ squote
  | .arr xs => "[" ++ String.intercalate ", " (xs.attach.map (fun x => pyRepr x.1)) ++ "]"
  | .obj kvs =>
      "\x7b" ++
        String.intercalate ", "
          (kvs.attach.map (fun kv => squote ++ kv.1.1 ++ squote ++ ": " ++ pyRepr kv.1.2)) ++
      "\x7d"
decreasing_by
  · have h1 := List.sizeOf_lt_of_mem x.2
    simp only [Json.arr.sizeOf_spec]
    omega
  · have h1 := List.sizeOf_lt_of_mem kv.2
    rcases kv with ⟨⟨a, b⟩, hm⟩
    simp only [Json.obj.sizeOf_spec, Prod.mk.sizeOf_spec] at h1 ⊢
    omega

/-- Python `str()` as used inside f-strings: identity on strings,
`repr`-style rendering on everything else. -/
def pyStr : Json → String
  | .str s => s
  | j => pyRepr j

/-- `"sep".join(xs)`. -/
def joinSep (sep : String) (xs : List String) : String := String.intercalate sep xs

/-! ## Shared helpers of `main.py` / `pcc_tools.py`

Both files define identical `_coerce_str`, `_get_param`, `_truncate_text`
and (in `main.py`) `_result_is_error`; we embed each once. -/

/-- `_coerce_str` (main.py:211, pcc_tools.py:1095): trimmed non-empty
strings survive, everything else becomes `None`. -/
def _coerce_str : Json → Option String
  | .str v => let t := pyStrip v; if t = "" then none else some t
  | _ => none

/-- Python truthiness of an (optional) parameter mapping: `not params`
holds for `None` and for an empty dict. -/
def paramsFalsy : Option (List (String × Json)) → Bool
  | none => true
  | some kvs => kvs.isEmpty

/-- `_get_param` (main.py:218, pcc_tools.py:1155): first present key wins;
the Python function returns `None` (here `Json.null`) when `params` is
falsy or no key is present. -/
def _get_param (params : Option (List (String × Json))) (keys : List String) : Json :=
  match params with
  | none => Json.null
  | some kvs =>
      if kvs.isEmpty then Json.null
      else
        match keys.findSome? (fun k => lookupKey kvs k) with
        | some v => v
        | none => Json.null

/-- `_truncate_text` (main.py:239, pcc_tools.py:1075): texts over the limit
are clipped to `limit - 3` characters, right-stripped, and get `"..."`. -/
def _truncate_text (text : String) (limit : Nat) : String :=
  if pyLen text ≤ limit then text
  else pyRstrip (pyTake text (limit - 3)) ++ "..."

/-- `_result_is_error` (main.py:246): a mapping whose `"error"` entry is a
string that is non-empty after stripping. -/
def _result_is_error : Json → Bool
  | .obj kvs =>
      match pyGet kvs "error" with
      | .str e => !(pyStrip e == "")
      | _ => false
  | _ => false

/-- The `{"error": message}` result shape used by every tool callback. -/
def errObj (message : String) : Json := Json.obj [("error", Json.str message)]

/-! ## `MeetingSummaryTracker` (main.py:59-182) -/

/-- `MeetingDefaults` (main.py:51). -/
structure MeetingDefaults where
  project_id : Option String
  meeting_id : Option String
  meeting_title : Option String
  meeting_started_at : Option String

/-- The mutable state of `MeetingSummaryTracker` (main.py:59-76); the
leading underscore of the Python attributes is dropped. -/
structure MeetingSummaryTracker where
  project_id : Option String
  meeting_id : Option String
  meeting_title : Option String
  meeting_started_at : Option String
  notes : List String
  action_items : List String
  summary_sent : Bool
  summary_blocked : Bool
  max_notes : Nat
  max_action_items : Nat

/-- `MeetingSummaryTracker.__init__` (main.py:60-76). -/
def MeetingSummaryTracker.init (defaults : MeetingDefaults)
    (max_notes max_action_items : Nat) : MeetingSummaryTracker :=
  { project_id := defaults.project_id
    meeting_id := defaults.meeting_id
    meeting_title := defaults.meeting_title
    meeting_started_at := defaults.meeting_started_at
    notes := []
    action_items := []
    summary_sent := false
    summary_blocked := false
    max_notes := max_notes
    max_action_items := max_action_items }

/-- Python falsiness of an optional string attribute (`not value` is true
for `None` and `""`). -/
def optFalsy : Option String → Bool
  | none => true
  | some s => s == ""

/-- `_assign_once` (main.py:147-160) on a single field: falsy values are
ignored, a `None` field is assigned, a set field is never overwritten
(conflicts are only logged). -/
def assign_once (current value : Option String) : Option String :=
  match value with
  | none => current
  | some v =>
      if v = "" then current
      else match current with
        | none => some v
        | some _ => current

/-- `update_from_params` (main.py:82-100). -/
def MeetingSummaryTracker.update_from_params (t : MeetingSummaryTracker)
    (params : Option (List (String × Json))) : MeetingSummaryTracker :=
  if paramsFalsy params then t
  else
    { t with
      project_id := assign_once t.project_id (_coerce_str (_get_param params ["project_id", "project"]))
      meeting_id := assign_once t.meeting_id (_coerce_str (_get_param params ["meeting_id", "meeting"]))
      meeting_title := assign_once t.meeting_title (_coerce_str (_get_param params ["meeting_title", "meeting_name", "title"]))
      meeting_started_at := assign_once t.meeting_started_at (_coerce_str (_get_param params ["meeting_started_at", "meeting_start"])) }

/-- `_add_note` (main.py:162-165): once the cap is reached further notes
are silently dropped, otherwise the truncated note is appended. -/
def MeetingSummaryTracker.add_note (t : MeetingSummaryTracker) (note : String) :
    MeetingSummaryTracker :=
  if t.max_notes ≤ t.notes.length then t
  else { t with notes := t.notes ++ [_truncate_text note 140] }

/-- `_add_action_item` (main.py:167-170). -/
def MeetingSummaryTracker.add_action_item (t : MeetingSummaryTracker) (title : String) :
    MeetingSummaryTracker :=
  if t.max_action_items ≤ t.action_items.length then t
  else { t with action_items := t.action_items ++ [_truncate_text title 140] }

/-- `record_tool_result` (main.py:102-119). -/
def MeetingSummaryTracker.record_tool_result (t : MeetingSummaryTracker)
    (name : String) (params : Option (List (String × Json))) (result : Json) :
    MeetingSummaryTracker :=
  if _result_is_error result then t
  else if name = "save_meeting_notes" then
    match _coerce_str (_get_param params ["note", "text"]) with
    | some note => t.add_note note
    | none => t
  else if name = "create_action_item" then
    match _coerce_str (_get_param params ["title", "summary"]) with
    | some title => t.add_action_item title
    | none => t
  else if name = "send_meeting_summary" then { t with summary_sent := true }
  else t

/-- `_build_summary_text` (main.py:172-182). -/
def MeetingSummaryTracker.build_summary_text (t : MeetingSummaryTracker) : String :=
  if t.notes.isEmpty ∧ t.action_items.isEmpty then
    "No notes or action items were captured during the meeting."
  else
    let lines : List String :=
      (if t.notes.isEmpty then [] else
        "Notes captured:" :: t.notes.map (fun note => "- " ++ note)) ++
      (if t.notes.isEmpty ∧ ¬t.action_items.isEmpty then
        ["No notes were captured; see action items for follow-ups."] else [])
    joinSep "\n" lines

/-- `build_summary_params` (main.py:121-145).  The returned tracker models
the mutation of `_summary_blocked`; the optional value is the parameter
dict handed to the summary-sending tool. -/
def MeetingSummaryTracker.build_summary_params (t : MeetingSummaryTracker)
    (ended_at : String) : MeetingSummaryTracker × Option (List (String × Json)) :=
  if optFalsy t.meeting_id || optFalsy t.project_id then
    ({ t with summary_blocked := true }, none)
  else
    let p := t.project_id.getD ""
    let m := t.meeting_id.getD ""
    let ps : List (String × Json) :=
      [("project_id", Json.str p), ("meeting_id", Json.str m),
       ("summary", Json.str t.build_summary_text),
       ("meeting_ended_at", Json.str ended_at),
       ("to_scope", Json.str "project"), ("to_project_id", Json.str p)] ++
      (match t.meeting_title with
        | some s => if s = "" then [] else [("meeting_title", Json.str s)]
        | none => []) ++
      (match t.meeting_started_at with
        | some s => if s = "" then [] else [("meeting_started_at", Json.str s)]
        | none => []) ++
      (if t.action_items.isEmpty then []
       else [("action_items", Json.arr (t.action_items.map Json.str))])
    (t, some ps)

/-! ## `MeetingSummaryDispatcher` (main.py:185-204)

`send_if_needed` runs its whole body under `self._lock`, so N concurrent
invocations execute their bodies sequentially in some order.  The
summary-sending callable is the instrumented `send_meeting_summary`
wrapper built in `main` (main.py:887-904): it merges the params, calls
`tracker.update_from_params`, performs the send, and records the result
via `tracker.record_tool_result`.  The channel itself is abstracted as an
oracle giving the result of each attempted send; `sendIfNeededOnce` is one
serialized execution of the locked body, and `dispatchRun` is N of them.
The returned list collects the result of every send actually attempted
(each element is one delivery attempt on the sending channel). -/

def sendIfNeededOnce (t : MeetingSummaryTracker) (ended_at : String)
    (channel_result : Json) : MeetingSummaryTracker × Option Json :=
  if t.summary_sent then (t, none)
  else
    match t.build_summary_params ended_at with
    | (t1, none) => (t1, none)
    | (t1, some ps) =>
        let t2 := t1.update_from_params (some ps)
        let t3 := t2.record_tool_result "send_meeting_summary" (some ps) channel_result
        (t3, some channel_result)

def dispatchRun (endedAts : Nat → String) (results : Nat → Json) :
    Nat → MeetingSummaryTracker → MeetingSummaryTracker × List Json
  | 0, t => (t, [])
  | n + 1, t =>
      let step := sendIfNeededOnce t (endedAts n) (results n)
      let rest := dispatchRun endedAts results n step.1
      (rest.1, step.2.toList ++ rest.2)

/-- Folding `record_tool_result` for `save_meeting_notes` over a sequence
of (params, result) pairs, as the instrumentation wrapper does for each
tool invocation. -/
def recordNotesRun (t : MeetingSummaryTracker)
    (events : List (Option (List (String × Json)) × Json)) : MeetingSummaryTracker :=
  events.foldl (fun t e => t.record_tool_result "save_meeting_notes" e.1 e.2) t

/-- A `save_meeting_notes` invocation is accepted by the tracker when its
result is not error-shaped and its params carry a coercible note. -/
def acceptedNote (e : Option (List (String × Json)) × Json) : Option String :=
  if _result_is_error e.2 then none
  else _coerce_str (_get_param e.1 ["note", "text"])

/-! ## `PccClient` (pcc_tools.py:19-191)

Each client method performs client-side validation and then at most one
HTTP request.  The HTTP layer is an oracle `net : NetCall → Except
PccClientError Json`; a method returns its `Except`-typed outcome together
with the list of requests it actually issued. -/

/-- `PccClientError` (pcc_tools.py:19-22). -/
structure PccClientError where
  message : String
  status_code : Option Nat

/-- One HTTP request as issued by a `PccClient` method. -/
inductive NetCall where
  | getGlobalContext : NetCall
  | listRepos : NetCall
  | getShiftContext (project_id : String) : NetCall
  | resolvePeople (payload : Json) : NetCall
  | sendCommunication (project_id : String) (data : Json) : NetCall
  | createWorkOrder (project_id : String) (data : Json) : NetCall
  | patchWorkOrder (project_id : String) (work_order_id : String) (data : Json) : NetCall

def NetCall.isPatch : NetCall → Bool
  | .patchWorkOrder _ _ _ => true
  | _ => false

def NetEnv : Type := NetCall → Except PccClientError Json

/-- `_select_project_summary`'s exact-match test for one list entry
(pcc_tools.py:945-954): non-mapping entries never match. -/
def exactMatchB (normalized : String) : Json → Bool
  | .obj kvs =>
      (pyLower (pyStrip ((_coerce_str (pyGet kvs "id")).getD "")) == normalized) ||
      (pyLower (pyStrip ((_coerce_str (pyGet kvs "name")).getD "")) == normalized)
  | _ => false

/-- `_select_project_summary`'s substring-match test (pcc_tools.py:960-966). -/
def substringMatchB (normalized : String) : Json → Bool
  | .obj kvs =>
      pyIn normalized (pyLower (pyStrip ((_coerce_str (pyGet kvs "id")).getD ""))) ||
      pyIn normalized (pyLower (pyStrip ((_coerce_str (pyGet kvs "name")).getD "")))
  | _ => false

/-- `_normalize` (pcc_tools.py:1063). -/
def _normalize (value : String) : String := pyLower (pyStrip value)

/-- `_select_project_summary` (pcc_tools.py:938-967): first exact
case-insensitive match on id or name; failing that, the first substring
match; an empty normalized query matches nothing. -/
def _select_project_summary (projects : List Json) (query : String) : Option Json :=
  let normalized := _normalize query
  if normalized = "" then none
  else
    let exact_matches := projects.filter (exactMatchB normalized)
    match exact_matches.head? with
    | some m => some m
    | none => projects.find? (substringMatchB normalized)

/-- `PccClient.get_project_status` (pcc_tools.py:81-90); `payload` is the
outcome of the `GET /repos` request. -/
def PccClient.get_project_status (project_id : String)
    (payload : Except PccClientError Json) : Except PccClientError Json :=
  if pyStrip project_id = "" then .error ⟨"Project id is required.", none⟩
  else
    match payload with
    | .error e => .error e
    | .ok p =>
        match p with
        | .arr projects =>
            match _select_project_summary projects project_id with
            | some m => .ok m
            | none =>
                .error ⟨"Project " ++ squote ++ project_id ++ squote ++ " not found.", some 404⟩
        | _ => .error ⟨"PCC response for /repos was not a list.", none⟩

/-- The two cleaning comprehensions of `resolve_people_by_emails`
(pcc_tools.py:106-107): keep strings only, strip them, drop empties. -/
def cleanedEmails (emails : List Json) : List String :=
  ((emails.filterMap (fun e => match e with | .str s => some (pyStrip s) | _ => none)).filter
    (fun e => e ≠ ""))

/-- `PccClient.resolve_people_by_emails` (pcc_tools.py:100-116).  The
emails argument is a list of arbitrary values, mirroring the
`isinstance(email, str)` guard. -/
def PccClient.resolve_people_by_emails (emails : List Json) (project_id : Option String)
    (net : NetEnv) : Except PccClientError Json × List NetCall :=
  let cleaned := cleanedEmails emails
  if cleaned.isEmpty then (.ok (Json.obj [("participants", Json.arr [])]), [])
  else
    let payload : List (String × Json) :=
      [("emails", Json.arr (cleaned.map Json.str))] ++
      (match project_id with
        | some p => if p = "" then [] else [("project_id", Json.str p)]
        | none => [])
    let call := NetCall.resolvePeople (Json.obj payload)
    match net call with
    | .error e => (.error e, [call])
    | .ok response =>
        match response with
        | .obj kvs => (.ok (Json.obj kvs), [call])
        | _ => (.ok (Json.obj [("participants", Json.arr [])]), [call])

/-- `PccClient.send_communication` (pcc_tools.py:118-160). -/
def PccClient.send_communication (net : NetEnv) (project_id intent summary : String)
    (body to_scope to_project_id communication_type run_id shift_id : Option String)
    (payload : Option Json) : Except PccClientError Json × List NetCall :=
  if pyStrip project_id = "" then (.error ⟨"Project id is required.", none⟩, [])
  else if pyStrip intent = "" then (.error ⟨"Communication intent is required.", none⟩, [])
  else if pyStrip summary = "" then (.error ⟨"Communication summary is required.", none⟩, [])
  else
    let data : List (String × Json) :=
      [("intent", Json.str (pyStrip intent)), ("summary", Json.str (pyStrip summary))] ++
      (match body with | some b => [("body", Json.str b)] | none => []) ++
      (match to_scope with | some v => [("to_scope", Json.str v)] | none => []) ++
      (match to_project_id with | some v => [("to_project_id", Json.str v)] | none => []) ++
      (match communication_type with | some v => [("type", Json.str v)] | none => []) ++
      (match run_id with | some v => [("run_id", Json.str v)] | none => []) ++
      (match shift_id with | some v => [("shift_id", Json.str v)] | none => []) ++
      (match payload with | some v => [("payload", v)] | none => [])
    let call := NetCall.sendCommunication project_id (Json.obj data)
    (net call, [call])

/-- `PccClient.create_work_order` (pcc_tools.py:162-174). -/
def PccClient.create_work_order (net : NetEnv) (project_id : String) (data : Json) :
    Except PccClientError Json × List NetCall :=
  if pyStrip project_id = "" then (.error ⟨"Project id is required.", none⟩, [])
  else
    let call := NetCall.createWorkOrder project_id data
    (net call, [call])

/-- `PccClient.patch_work_order` (pcc_tools.py:176-191). -/
def PccClient.patch_work_order (net : NetEnv) (project_id work_order_id : String)
    (data : Json) : Except PccClientError Json × List NetCall :=
  if pyStrip project_id = "" then (.error ⟨"Project id is required.", none⟩, [])
  else if pyStrip work_order_id = "" then (.error ⟨"Work order id is required.", none⟩, [])
  else
    let call := NetCall.patchWorkOrder project_id work_order_id data
    (net call, [call])

/-! ## Tool-callback helpers (pcc_tools.py:552-576, 1082-1152) -/

/-- `COMMUNICATION_INTENTS` (pcc_tools.py:14). -/
def COMMUNICATION_INTENTS : List String := ["request", "message", "suggestion", "status"]

/-- `COMMUNICATION_SCOPES` (pcc_tools.py:15). -/
def COMMUNICATION_SCOPES : List String := ["project", "global", "user"]

/-- `ACTION_ITEM_TYPES` (pcc_tools.py:16). -/
def ACTION_ITEM_TYPES : List String := ["work_order", "communication"]

/-- `_coerce_int` (pcc_tools.py:1082-1092): booleans are rejected, numbers
pass through, numeric strings are parsed (model: integer values only). -/
def _coerce_int : Json → Option Int
  | .bool _ => none
  | .int n => some n
  | .str s => (pyStrip s).toInt?
  | _ => none

/-- `_coerce_str_list` (pcc_tools.py:1102-1111): a native list keeps its
trimmed non-empty strings; a string is split on commas. -/
def _coerce_str_list : Json → List String
  | .arr xs =>
      xs.filterMap (fun item =>
        match item with
        | .str s => let t := pyStrip s; if t = "" then none else some t
        | _ => none)
  | .str s =>
      (s.splitOn ",").filterMap (fun item =>
        let t := pyStrip item; if t = "" then none else some t)
  | _ => []

/-- `_build_meeting_payload` (pcc_tools.py:1114-1137). -/
def _build_meeting_payload (meeting_id : String)
    (meeting_title meeting_started_at meeting_ended_at : Option String)
    (attendee_emails : List String) (recorded_at kind : String) :
    List (String × Json) :=
  [("meeting_id", Json.str meeting_id), ("recorded_at", Json.str recorded_at),
   ("kind", Json.str kind)] ++
  (match meeting_title with
    | some v => if v = "" then [] else [("meeting_title", Json.str v)]
    | none => []) ++
  (match meeting_started_at with
    | some v => if v = "" then [] else [("meeting_started_at", Json.str v)]
    | none => []) ++
  (match meeting_ended_at with
    | some v => if v = "" then [] else [("meeting_ended_at", Json.str v)]
    | none => []) ++
  (if attendee_emails.isEmpty then [] else
    [("attendee_emails", Json.arr (attendee_emails.map Json.str))])

/-- `_resolve_to_scope` (pcc_tools.py:1140-1152); the `Except` error is the
`ValueError` the Python function raises. -/
def _resolve_to_scope (params : Option (List (String × Json)))
    (default_scope project_id : String) : Except String (String × Option String) :=
  let to_scope := (_coerce_str (_get_param params ["to_scope"])).getD default_scope
  if to_scope ∉ COMMUNICATION_SCOPES then
    .error "to_scope must be project, global, or user."
  else
    let to_project_id := _coerce_str (_get_param params ["to_project_id"])
    if to_scope = "project" ∧ to_project_id = none then .ok (to_scope, some project_id)
    else .ok (to_scope, to_project_id)

/-- `resolve_attendees` (pcc_tools.py:563-576): the first alias key whose
value coerces to a non-empty list wins; otherwise the default list
captured at construction time. -/
def resolve_attendees (default_attendee_list : List String)
    (params : Option (List (String × Json))) : List String :=
  if paramsFalsy params then default_attendee_list
  else
    match ["attendee_emails", "attendees", "participant_emails", "participants",
           "emails"].findSome? (fun key =>
        let attendees := _coerce_str_list (_get_param params [key])
        if attendees.isEmpty then none else some attendees) with
    | some attendees => attendees
    | none => default_attendee_list

/-! ## `create_action_item_tool` (pcc_tools.py:693-809) -/

def create_action_item_tool (default_attendee_list : List String) (now : String)
    (net : NetEnv) (params : Option (List (String × Json))) : Json × List NetCall :=
  if paramsFalsy params then (errObj "Action item details are required.", [])
  else if (_coerce_str (_get_param params ["project_id", "project"])).isNone ||
          (_coerce_str (_get_param params ["meeting_id", "meeting"])).isNone ||
          (_coerce_str (_get_param params ["title", "summary"])).isNone then
    (errObj "project_id, meeting_id, and title are required.", [])
  else
    let project_id := (_coerce_str (_get_param params ["project_id", "project"])).getD ""
    let meeting_id := (_coerce_str (_get_param params ["meeting_id", "meeting"])).getD ""
    let title := (_coerce_str (_get_param params ["title", "summary"])).getD ""
    let action_type := (_coerce_str (_get_param params ["action_type", "type", "mode"])).getD "work_order"
    if action_type ∉ ACTION_ITEM_TYPES then
      (errObj "action_type must be work_order or communication.", [])
    else
      let meeting_title := _coerce_str (_get_param params ["meeting_title", "meeting_name"])
      let meeting_started_at := _coerce_str (_get_param params ["meeting_started_at", "meeting_start"])
      let description := _coerce_str (_get_param params ["description", "details", "body"])
      let recorded_at := now
      let payload : List (String × Json) :=
        _build_meeting_payload meeting_id meeting_title meeting_started_at none
          (resolve_attendees default_attendee_list params) recorded_at "action_item" ++
        [("action_title", Json.str title)] ++
        (match description with
          | some d => [("action_description", Json.str d)]
          | none => [])
      if action_type = "communication" then
        let intent := (_coerce_str (_get_param params ["intent"])).getD "request"
        if intent ∉ COMMUNICATION_INTENTS then
          (errObj "intent must be request, message, suggestion, or status.", [])
        else
          let summary :=
            match _coerce_str (_get_param params ["summary"]) with
            | some s => s
            | none => "Action item (" ++ meeting_id ++ "): " ++ title
          let body_lines : List String :=
            ["Meeting ID: " ++ meeting_id] ++
            (match meeting_title with
              | some v => ["Meeting title: " ++ v]
              | none => []) ++
            (match meeting_started_at with
              | some v => ["Meeting started: " ++ v]
              | none => []) ++
            ["Action item: " ++ title] ++
            (match description with
              | some d => ["Details: " ++ d]
              | none => [])
          let body := joinSep "\n" body_lines
          match _resolve_to_scope params "global" project_id with
          | .error msg => (errObj msg, [])
          | .ok scope =>
              match PccClient.send_communication net project_id intent summary
                  (some body) (some scope.1) scope.2 none none none
                  (some (Json.obj payload)) with
              | (.ok communication, calls) =>
                  (Json.obj [("action_type", Json.str "communication"),
                             ("communication", communication)], calls)
              | (.error e, calls) => (errObj e.message, calls)
      else
        let priority := _coerce_int (_get_param params ["priority"])
        let tags0 := _coerce_str_list (_get_param params ["tags"])
        let tags := if "meeting-action-item" ∈ tags0 then tags0
                    else tags0 ++ ["meeting-action-item"]
        let create_payload : List (String × Json) :=
          [("title", Json.str title), ("tags", Json.arr (tags.map Json.str))] ++
          (match priority with
            | some p => [("priority", Json.int p)]
            | none => [])
        match PccClient.create_work_order net project_id (Json.obj create_payload) with
        | (.error e, calls) => (errObj e.message, calls)
        | (.ok created, calls) =>
            match created with
            | .obj ckvs =>
                match _coerce_str (pyGet ckvs "id") with
                | none => (errObj "PCC response missing work order id.", calls)
                | some work_order_id =>
                    let context_lines : List String :=
                      ["Origin: Meeting " ++ meeting_id] ++
                      (match meeting_title with
                        | some v => ["Meeting title: " ++ v]
                        | none => []) ++
                      (match meeting_started_at with
                        | some v => ["Meeting started: " ++ v]
                        | none => []) ++
                      (match description with
                        | some d => ["Action detail: " ++ d]
                        | none => [])
                    let patch_payload : List (String × Json) :=
                      [("context", Json.arr (context_lines.map Json.str))] ++
                      (match description with
                        | some d => [("goal", Json.str d)]
                        | none => [])
                    match PccClient.patch_work_order net project_id work_order_id
                        (Json.obj patch_payload) with
                    | (.ok updated, calls2) =>
                        (Json.obj [("action_type", Json.str "work_order"),
                                   ("work_order", updated)], calls ++ calls2)
                    | (.error e, calls2) => (errObj e.message, calls ++ calls2)
            | _ => (errObj "PCC response missing work order details.", calls)

/-! ## Context summarizer (pcc_tools.py:202-314, 970-1060) -/

/-- Digit grouping in threes for Python's `,` format specifier. -/
def chunk3 : List Char → List (List Char)
  | [] => []
  | a :: b :: c :: rest => [a, b, c] :: chunk3 rest
  | l => [l]

/-- Python `f"{n:,}"` on a natural number: thousands separated by commas. -/
def commaGroupNat (n : Nat) : String :=
  String.mk (((chunk3 (toString n).data.reverse).intersperse [',']).flatten.reverse)

/-- Python `f"{v:,.0f}"` on an integer. -/
def pyFormatComma0 (v : Int) : String :=
  (if v < 0 then "-" else "") ++ commaGroupNat v.natAbs

/-- Python `isinstance(value, int)` (booleans included, since `bool` is a
subclass of `int`) together with the integer value it contributes. -/
def pyIntOf : Json → Option Int
  | .int n => some n
  | .bool b => some (if b then 1 else 0)
  | _ => none

/-- `_format_usd` (pcc_tools.py:1047-1052); numeric values of the model
are integers and booleans (Python `isinstance(value, (int, float))`). -/
def _format_usd (value : Json) : String :=
  match pyIntOf value with
  | some v =>
      if 100 ≤ v.natAbs then "$" ++ pyFormatComma0 v
      else "$" ++ pyFormatComma0 v ++ ".00"
  | none => ""

/-- `_format_number` (pcc_tools.py:1055-1060). -/
def _format_number (value : Json) : String :=
  match pyIntOf value with
  | some v =>
      if 100 ≤ v.natAbs then pyFormatComma0 v
      else pyFormatComma0 v ++ ".0"
  | none => ""

/-- Per-health tallies from `summarize_global_context` (pcc_tools.py:211-217). -/
structure HealthCounts where
  healthy : Nat
  attention_needed : Nat
  stalled : Nat
  failing : Nat
  blocked : Nat

/-- Per-status tallies (pcc_tools.py:218). -/
structure StatusCounts where
  active : Nat
  blocked : Nat
  parked : Nat

/-- Work-order tallies (pcc_tools.py:219); summed JSON integers may be
negative. -/
structure WorkOrderCounts where
  ready : Int
  building : Int
  blocked : Int

/-- The loop state of `summarize_global_context` (pcc_tools.py:211-242). -/
structure GlobalAcc where
  health_counts : HealthCounts
  status_counts : StatusCounts
  work_orders : WorkOrderCounts
  escalations : Nat
  active_shifts : Nat

def initGlobalAcc : GlobalAcc :=
  { health_counts := ⟨0, 0, 0, 0, 0⟩
    status_counts := ⟨0, 0, 0⟩
    work_orders := ⟨0, 0, 0⟩
    escalations := 0
    active_shifts := 0 }

def bumpHealth (hc : HealthCounts) (h : String) : HealthCounts :=
  if h = "healthy" then { hc with healthy := hc.healthy + 1 }
  else if h = "attention_needed" then { hc with attention_needed := hc.attention_needed + 1 }
  else if h = "stalled" then { hc with stalled := hc.stalled + 1 }
  else if h = "failing" then { hc with failing := hc.failing + 1 }
  else if h = "blocked" then { hc with blocked := hc.blocked + 1 }
  else hc

def bumpStatus (sc : StatusCounts) (s : String) : StatusCounts :=
  if s = "active" then { sc with active := sc.active + 1 }
  else if s = "blocked" then { sc with blocked := sc.blocked + 1 }
  else if s = "parked" then { sc with parked := sc.parked + 1 }
  else sc

def addWorkOrders (w : WorkOrderCounts) (kvs : List (String × Json)) : WorkOrderCounts :=
  let w := match pyIntOf (pyGet kvs "ready") with
    | some n => { w with ready := w.ready + n }
    | none => w
  let w := match pyIntOf (pyGet kvs "building") with
    | some n => { w with building := w.building + n }
    | none => w
  match pyIntOf (pyGet kvs "blocked") with
  | some n => { w with blocked := w.blocked + n }
  | none => w

/-- One iteration of the project loop (pcc_tools.py:223-242). -/
def accProject (acc : GlobalAcc) (project : Json) : GlobalAcc :=
  match project with
  | .obj kvs =>
      let acc := match pyGet kvs "health" with
        | .str h => { acc with health_counts := bumpHealth acc.health_counts h }
        | _ => acc
      let acc := match pyGet kvs "status" with
        | .str s => { acc with status_counts := bumpStatus acc.status_counts s }
        | _ => acc
      let acc := match pyGet kvs "work_orders" with
        | .obj wo => { acc with work_orders := addWorkOrders acc.work_orders wo }
        | _ => acc
      let acc := match pyGet kvs "escalations" with
        | .arr es => { acc with escalations := acc.escalations + es.length }
        | _ => acc
      match pyGet kvs "active_shift" with
      | .null => acc
      | _ => { acc with active_shifts := acc.active_shifts + 1 }
  | _ => acc

/-- `_format_status_counts` (pcc_tools.py:970-979). -/
def _format_status_counts (sc : StatusCounts) : String :=
  if sc.active + sc.blocked + sc.parked = 0 then ""
  else
    "Status: " ++ toString sc.active ++ " active, " ++ toString sc.blocked ++
    " blocked, " ++ toString sc.parked ++ " parked."

/-- `_format_work_order_counts` (pcc_tools.py:982-991). -/
def _format_work_order_counts (w : WorkOrderCounts) : String :=
  if w.ready + w.building + w.blocked = 0 then ""
  else
    "Work orders: " ++ toString w.ready ++ " ready, " ++ toString w.building ++
    " building, " ++ toString w.blocked ++ " blocked."

/-- `_format_budget_line` (pcc_tools.py:994-1007). -/
def _format_budget_line (economy_value : Json) : String :=
  match economy_value with
  | .obj kvs =>
      let remaining_text := _format_usd (pyGet kvs "total_remaining_usd")
      let runway_text := _format_number (pyGet kvs "portfolio_runway_days")
      if remaining_text ≠ "" ∧ runway_text ≠ "" then
        "Budget remaining " ++ remaining_text ++ "; runway " ++ runway_text ++ " days."
      else if remaining_text ≠ "" then "Budget remaining " ++ remaining_text ++ "."
      else if runway_text ≠ "" then "Runway " ++ runway_text ++ " days."
      else ""
  | _ => ""

/-- `_format_global_session` (pcc_tools.py:1010-1018). -/
def _format_global_session (session_value : Json) : String :=
  match session_value with
  | .obj kvs =>
      match _coerce_str (pyGet kvs "state") with
      | none => ""
      | some state =>
          let suffix := match _coerce_str (pyGet kvs "paused_at") with
            | some _ => " (paused)"
            | none => ""
          "Global session " ++ state ++ suffix ++ "."
  | _ => ""

/-- `_format_project_samples` (pcc_tools.py:1021-1044). -/
def _format_project_samples (projects : List Json) (limit : Nat) : String :=
  let lines := (projects.take limit).filterMap (fun project =>
    match project with
    | .obj kvs =>
        let work_orders := match pyGet kvs "work_orders" with
          | .obj wo => wo
          | _ => []
        let ready := pyGetD work_orders "ready" (Json.int 0)
        let blocked := pyGetD work_orders "blocked" (Json.int 0)
        let health := pyGetD kvs "health" (Json.str "unknown")
        let status := pyGetD kvs "status" (Json.str "unknown")
        let name := pyGetD kvs "name" (Json.str "unknown")
        let project_id := pyGetD kvs "id" (Json.str "unknown")
        some ("- " ++ pyStr name ++ " (" ++ pyStr project_id ++ "): status " ++
          pyStr status ++ ", health " ++ pyStr health ++ ", ready " ++ pyStr ready ++
          ", blocked " ++ pyStr blocked ++ ".")
    | _ => none)
  if lines.isEmpty then "" else "Sample projects:\n" ++ joinSep "\n" lines

/-- `summarize_global_context` (pcc_tools.py:202-277): any input that is
not a mapping, or whose `"projects"` value is not a list, produces the
fixed unavailable message. -/
def summarize_global_context (context : Json) : String :=
  let projects_value := match context with
    | .obj kvs => pyGet kvs "projects"
    | _ => Json.null
  match projects_value with
  | .arr projects =>
      if projects.length = 0 then "No projects found in the portfolio."
      else
        let acc := projects.foldl accProject initGlobalAcc
        let parts : List String :=
          ["Portfolio:", toString projects.length ++ " projects",
           "(" ++ toString acc.health_counts.healthy ++ " healthy, " ++
             toString acc.health_counts.attention_needed ++ " attention needed, " ++
             toString acc.health_counts.stalled ++ " stalled, " ++
             toString acc.health_counts.failing ++ " failing, " ++
             toString acc.health_counts.blocked ++ " blocked)."] ++
          (let l := _format_status_counts acc.status_counts
           if l = "" then [] else [l]) ++
          (let l := _format_work_order_counts acc.work_orders
           if l = "" then [] else [l]) ++
          (if acc.escalations ≠ 0 ∨ acc.active_shifts ≠ 0 then
            ["Escalations " ++ toString acc.escalations ++ "; active shifts " ++
             toString acc.active_shifts ++ "."] else []) ++
          (let l := _format_budget_line (match context with
            | .obj kvs => pyGet kvs "economy"
            | _ => Json.null)
           if l = "" then [] else [l]) ++
          (let l := _format_global_session (match context with
            | .obj kvs => pyGet kvs "global_session"
            | _ => Json.null)
           if l = "" then [] else [l])
        let summary := joinSep " " parts
        let samples := _format_project_samples projects 5
        if samples = "" then summary else summary ++ "\n" ++ samples
  | _ => "Global context is unavailable."

/-- `summarize_participants` (pcc_tools.py:280-314).  The Python function
calls `payload.get(...)` without first checking that `payload` is a
mapping, so a non-mapping argument raises `AttributeError`; this is
modelled by the `Except.error` branch. -/
def summarize_participants (payload : Json) : Except String String :=
  match payload with
  | .obj kvs =>
      .ok (match pyGet kvs "participants" with
        | .arr participants_value =>
            let lines := participants_value.filterMap (fun entry =>
              match entry with
              | .obj ekvs =>
                  let email := (_coerce_str (pyGet ekvs "email")).getD ""
                  match pyGet ekvs "person" with
                  | .obj pkvs =>
                      let name := (_coerce_str (pyGet pkvs "name")).getD "Unknown"
                      let role := _coerce_str (pyGet pkvs "role")
                      let company := _coerce_str (pyGet pkvs "company")
                      let relationship := _coerce_str (pyGet pkvs "relationship")
                      let detail_parts : List String :=
                        (match role, company with
                          | some r, some c => [r ++ " at " ++ c]
                          | some r, none => [r]
                          | none, some c => [c]
                          | none, none => []) ++
                        (match relationship with
                          | some rel => ["relationship: " ++ rel]
                          | none => [])
                      let detail := if detail_parts.isEmpty then ""
                        else " (" ++ joinSep ", " detail_parts ++ ")"
                      if email ≠ "" then some ("- " ++ email ++ ": " ++ name ++ detail)
                      else some ("- " ++ name ++ detail)
                  | _ =>
                      if email ≠ "" then some ("- " ++ email ++ ": unknown")
                      else none
              | _ => none)
            if lines.isEmpty then "" else "Participants:\n" ++ joinSep "\n" lines
        | _ => "")
  | _ => .error "AttributeError: value has no attribute get"

/-! ## Helper lemmas -/

theorem pyStripList_eq_nil_iff (cs : List Char) :
    pyStripList cs = [] ↔ ∀ c ∈ cs, c.isWhitespace := by
  unfold pyStripList
  constructor
  · intro h c hc
    rw [List.reverse_eq_nil_iff, List.dropWhile_eq_nil_iff] at h
    by_cases hcd : c ∈ cs.dropWhile Char.isWhitespace
    · exact h c (List.mem_reverse.mpr hcd)
    · have hsplit : cs.takeWhile Char.isWhitespace ++ cs.dropWhile Char.isWhitespace = cs :=
        List.takeWhile_append_dropWhile Char.isWhitespace cs
      rw [← hsplit] at hc
      rcases List.mem_append.mp hc with h1 | h2
      · exact List.mem_takeWhile_imp h1
      · exact absurd h2 hcd
  · intro h
    have h1 : cs.dropWhile Char.isWhitespace = [] :=
      List.dropWhile_eq_nil_iff.mpr (fun x hx => h x hx)
    simp [h1]

/-- A non-empty stripped string contains a non-whitespace character, so
stripping it again cannot give the empty string. -/
theorem pyStrip_pyStrip_ne {v p : String} (hp : pyStrip v = p) (hne : p ≠ "") :
    pyStrip p ≠ "" := by
  intro hcon
  have hdata : pyStripList p.data = [] := by
    have : (pyStrip p).data = ("" : String).data := by rw [hcon]
    simpa [pyStrip] using this
  have hall : ∀ c ∈ p.data, c.isWhitespace := (pyStripList_eq_nil_iff _).mp hdata
  have hpd : p.data = pyStripList v.data := by
    rw [← hp]; rfl
  set X := (v.data.dropWhile Char.isWhitespace).reverse.dropWhile Char.isWhitespace with hX
  have hpd2 : p.data = X.reverse := hpd
  have hXne : X ≠ [] := by
    intro hnil
    apply hne
    have : p.data = ("" : String).data := by rw [hpd2, hnil]; rfl
    apply String.ext
    simpa using this
  have hlen : 0 < X.length := List.length_pos.mpr hXne
  have hhead : ¬(X.get ⟨0, hlen⟩).isWhitespace := List.dropWhile_get_zero_not _ _ _
  have hmem : X.get ⟨0, hlen⟩ ∈ p.data := by
    rw [hpd2, List.mem_reverse]
    exact X.get_mem 0 hlen
  exact hhead (hall _ hmem)

/-- Values produced by `_coerce_str` are non-empty and survive a further
strip-and-check. -/
theorem coerce_str_spec {j : Json} {p : String} (h : _coerce_str j = some p) :
    p ≠ "" ∧ pyStrip p ≠ "" := by
  unfold _coerce_str at h
  match j with
  | .null | .bool _ | .int _ | .arr _ | .obj _ => simp at h
  | .str v =>
      simp only at h
      by_cases he : pyStrip v = ""
      · simp [he] at h
      · simp [he] at h
        exact ⟨h ▸ he, pyStrip_pyStrip_ne h (h ▸ he)⟩

theorem coerce_str_not_falsy {params : Option (List (String × Json))} {keys : List String}
    {p : String} (h : _coerce_str (_get_param params keys) = some p) :
    paramsFalsy params = false := by
  cases params with
  | none => simp [_get_param, _coerce_str] at h
  | some kvs =>
      by_cases he : kvs.isEmpty
      · simp [_get_param, he, _coerce_str] at h
      · simp [paramsFalsy, he]

/-! ## Claim C2 -/

/-- C2: for every tracker state and ended-at string, `build_summary_params`
returns `None` exactly when `project_id` or `meeting_id` is unset (falsy),
and when both are set the returned parameter object starts with both ids,
the given `meeting_ended_at`, `to_scope = "project"` and `to_project_id`
equal to the meeting's own project id, regardless of notes/action items. -/
theorem build_summary_params_spec (t : MeetingSummaryTracker) (ended_at : String) :
    ((t.build_summary_params ended_at).2 = none ↔
      optFalsy t.project_id = true ∨ optFalsy t.meeting_id = true) ∧
    (∀ p m, t.project_id = some p → t.meeting_id = some m → p ≠ "" → m ≠ "" →
      ∃ rest, (t.build_summary_params ended_at).2 =
        some ([("project_id", Json.str p), ("meeting_id", Json.str m),
               ("summary", Json.str t.build_summary_text),
               ("meeting_ended_at", Json.str ended_at),
               ("to_scope", Json.str "project"),
               ("to_project_id", Json.str p)] ++ rest)) := by
  constructor
  · unfold MeetingSummaryTracker.build_summary_params
    by_cases hc : (optFalsy t.meeting_id || optFalsy t.project_id) = true
    · simp only [hc, if_true]
      simp only [Bool.or_eq_true] at hc
      simp [hc.symm, Or.comm]
    · simp only [hc, if_false]
      simp only [Bool.or_eq_true] at hc
      push_neg at hc
      simp [Bool.not_eq_true] at hc
      simp [hc.1, hc.2]
  · intro p m hp hm hpne hmne
    unfold MeetingSummaryTracker.build_summary_params
    refine ⟨((match t.meeting_title with
        | some s => if s = "" then [] else [("meeting_title", Json.str s)]
        | none => []) ++
      (match t.meeting_started_at with
        | some s => if s = "" then [] else [("meeting_started_at", Json.str s)]
        | none => [])) ++
      (if t.action_items.isEmpty then []
       else [("action_items", Json.arr (t.action_items.map Json.str))]), ?_⟩
    rw [hp, hm]
    have hcond : (optFalsy (some m) || optFalsy (some p)) = false := by
      simp [optFalsy, hmne, hpne]
    simp only [hcond, Bool.false_eq_true, if_false, Option.getD_some]
    rfl

/-- Witness for C2: a tracker with both ids populated yields a parameter
dict carrying both ids, the given end time, project scope and the
tracker's own project id. -/
theorem build_summary_params_spec_witness :
    ∃ rest,
      (MeetingSummaryTracker.build_summary_params
        { project_id := some "p-1", meeting_id := some "m-7", meeting_title := none,
          meeting_started_at := none, notes := [], action_items := [],
          summary_sent := false, summary_blocked := false, max_notes := 5,
          max_action_items := 5 } "2024-05-01T10:00:00Z").2 =
      some ([("project_id", Json.str "p-1"), ("meeting_id", Json.str "m-7"),
             ("summary", Json.str (MeetingSummaryTracker.build_summary_text
               { project_id := some "p-1", meeting_id := some "m-7", meeting_title := none,
                 meeting_started_at := none, notes := [], action_items := [],
                 summary_sent := false, summary_blocked := false, max_notes := 5,
                 max_action_items := 5 })),
             ("meeting_ended_at", Json.str "2024-05-01T10:00:00Z"),
             ("to_scope", Json.str "project"),
             ("to_project_id", Json.str "p-1")] ++ rest) :=
  (build_summary_params_spec _ "2024-05-01T10:00:00Z").2 "p-1" "m-7" rfl rfl
    (by decide) (by decide)

/-! ## Claim C6 -/

/-- C6: for every tool name, parameter object and error-shaped result (a
mapping with a non-empty string under `"error"`), `record_tool_result`
leaves the entire tracker state unchanged, so a failed summary send can be
retried later. -/
theorem record_tool_result_error_noop (t : MeetingSummaryTracker) (name : String)
    (params : Option (List (String × Json))) (result : Json)
    (herr : _result_is_error result = true) :
    t.record_tool_result name params result = t := by
  unfold MeetingSummaryTracker.record_tool_result
  simp [herr]

/-- Witness for C6: a failed `send_meeting_summary` result leaves a fresh
tracker untouched (in particular `summary_sent` stays false). -/
theorem record_tool_result_error_noop_witness :
    _result_is_error (errObj "PCC request timed out.") = true ∧
    MeetingSummaryTracker.record_tool_result
      (MeetingSummaryTracker.init ⟨some "p-1", some "m-7", none, none⟩ 5 5)
      "send_meeting_summary" none (errObj "PCC request timed out.") =
    MeetingSummaryTracker.init ⟨some "p-1", some "m-7", none, none⟩ 5 5 :=
  ⟨rfl, record_tool_result_error_noop _ _ _ _ rfl⟩

/-! ## Claim C3 -/

theorem record_note_max (t : MeetingSummaryTracker)
    (p : Option (List (String × Json))) (r : Json) :
    (t.record_tool_result "save_meeting_notes" p r).max_notes = t.max_notes := by
  unfold MeetingSummaryTracker.record_tool_result MeetingSummaryTracker.add_note
  by_cases herr : _result_is_error r
  · simp [herr]
  · simp only [herr]
    cases _coerce_str (_get_param p ["note", "text"]) <;> simp <;> split <;> rfl

theorem record_note_notes (t : MeetingSummaryTracker)
    (p : Option (List (String × Json))) (r : Json) :
    (t.record_tool_result "save_meeting_notes" p r).notes =
      match acceptedNote (p, r) with
      | none => t.notes
      | some n =>
          if t.max_notes ≤ t.notes.length then t.notes
          else t.notes ++ [_truncate_text n 140] := by
  unfold MeetingSummaryTracker.record_tool_result MeetingSummaryTracker.add_note acceptedNote
  by_cases herr : _result_is_error r
  · simp [herr]
  · simp only [herr]
    cases _coerce_str (_get_param p ["note", "text"]) <;> simp <;> split <;> rfl

theorem recordNotesRun_notes (events : List (Option (List (String × Json)) × Json)) :
    ∀ t : MeetingSummaryTracker,
      (recordNotesRun t events).notes =
        t.notes ++ ((events.filterMap acceptedNote).map
          (fun n => _truncate_text n 140)).take (t.max_notes - t.notes.length) ∧
      (recordNotesRun t events).max_notes = t.max_notes := by
  induction events with
  | nil => intro t; simp [recordNotesRun]
  | cons e es ih =>
      intro t
      have hstep : recordNotesRun t (e :: es) =
          recordNotesRun (t.record_tool_result "save_meeting_notes" e.1 e.2) es := by
        simp [recordNotesRun]
      rw [hstep]
      obtain ⟨ihn, ihm⟩ := ih (t.record_tool_result "save_meeting_notes" e.1 e.2)
      rw [ihn, ihm, record_note_max, record_note_notes]
      have hfm : (e :: es).filterMap acceptedNote =
          match acceptedNote e with
          | none => es.filterMap acceptedNote
          | some n => n :: es.filterMap acceptedNote := by
        cases ha : acceptedNote e <;> simp [List.filterMap_cons, ha]
      rw [hfm]
      cases ha : acceptedNote (e.1, e.2) with
      | none =>
          have ha2 : acceptedNote e = none := by
            cases e; exact ha
          simp [ha2]
      | some n =>
          have ha2 : acceptedNote e = some n := by
            cases e; exact ha
          simp only [ha2]
          by_cases hfull : t.max_notes ≤ t.notes.length
          · have hz : t.max_notes - t.notes.length = 0 := Nat.sub_eq_zero_of_le hfull
            simp [hfull, hz]
          · have hlt : t.notes.length < t.max_notes := Nat.lt_of_not_le hfull
            have hlen : (t.notes ++ [_truncate_text n 140]).length = t.notes.length + 1 := by
              simp
            simp only [hfull, if_false, hlen, List.map_cons]
            have hsub : t.max_notes - t.notes.length =
                (t.max_notes - (t.notes.length + 1)) + 1 := by omega
            rw [hsub, List.take_succ_cons, List.append_assoc]
            simp

/-- C3: starting from a freshly constructed tracker (default cap 5), any
sequence of `save_meeting_notes` tool invocations leaves at most 5 stored
notes, namely the first 5 accepted notes (non-error result, coercible note
text) in call order, each stored in its 140-character truncated form;
later accepted notes are silently dropped. -/
theorem notes_capped (defaults : MeetingDefaults)
    (events : List (Option (List (String × Json)) × Json)) :
    (recordNotesRun (MeetingSummaryTracker.init defaults 5 5) events).notes =
      ((events.filterMap acceptedNote).take 5).map (fun n => _truncate_text n 140) ∧
    (recordNotesRun (MeetingSummaryTracker.init defaults 5 5) events).notes.length ≤ 5 := by
  obtain ⟨hn, _⟩ := recordNotesRun_notes events (MeetingSummaryTracker.init defaults 5 5)
  have hinit : (MeetingSummaryTracker.init defaults 5 5).notes = [] := rfl
  have hmax : (MeetingSummaryTracker.init defaults 5 5).max_notes = 5 := rfl
  rw [hinit, hmax] at hn
  simp only [List.nil_append, List.length_nil, Nat.sub_zero] at hn
  constructor
  · rw [hn, List.map_take]
  · rw [hn]
    calc (((events.filterMap acceptedNote).map (fun n => _truncate_text n 140)).take 5).length
        ≤ 5 := List.length_take_le 5 _

/-! ## Claim C4 -/

/-- A 147-character note whose 137th character is a space: `_truncate_text`
right-strips the clipped prefix, so the stored note has 139 characters. -/
def longNoteExample : String :=
  String.mk (List.replicate 136 'a' ++ [' '] ++ List.replicate 10 'b')

set_option maxRecDepth 12000 in
/-- Counterexample to C4 as stated: this note is longer than 140
characters, recording it stores `_truncate_text` of it, and the stored
text has 139 characters, not exactly 140. -/
theorem truncate_not_exactly_140 :
    140 < pyLen longNoteExample ∧
    ((MeetingSummaryTracker.init ⟨none, none, none, none⟩ 5 5).add_note
        longNoteExample).notes = [_truncate_text longNoteExample 140] ∧
    pyLen (_truncate_text longNoteExample 140) = 139 := by
  refine ⟨by decide, rfl, by decide⟩

/-- C4 (amended): for every note text longer than 140 characters, the
stored note is **at most** 140 characters long (exactly 140 unless the
clipped prefix ends in whitespace, which is right-stripped) and ends with
`"..."`; `add_note` stores precisely this truncated text while the cap is
not reached. -/
theorem truncate_note_bound (note : String) (hlong : 140 < pyLen note) :
    pyLen (_truncate_text note 140) ≤ 140 ∧
    pyEndsWith (_truncate_text note 140) "..." = true ∧
    ∀ t : MeetingSummaryTracker, t.notes.length < t.max_notes →
      (t.add_note note).notes = t.notes ++ [_truncate_text note 140] := by
  have hnotle : ¬(pyLen note ≤ 140) := Nat.not_le.mpr hlong
  have htr : _truncate_text note 140 = pyRstrip (pyTake note 137) ++ "..." := by
    unfold _truncate_text
    simp [hnotle]
  refine ⟨?_, ?_, ?_⟩
  · rw [htr]
    have hdata : (pyRstrip (pyTake note 137) ++ "...").data =
        (pyRstrip (pyTake note 137)).data ++ ("..." : String).data := String.data_append _ _
    unfold pyLen
    rw [hdata, List.length_append]
    have h1 : (pyRstrip (pyTake note 137)).data.length ≤ 137 := by
      unfold pyRstrip pyTake
      simp only
      calc ((note.data.take 137).reverse.dropWhile Char.isWhitespace).reverse.length
          = ((note.data.take 137).reverse.dropWhile Char.isWhitespace).length := by
            rw [List.length_reverse]
        _ ≤ (note.data.take 137).reverse.length := (List.dropWhile_sublist _).length_le
        _ = (note.data.take 137).length := by rw [List.length_reverse]
        _ ≤ 137 := List.length_take_le 137 _
    have h2 : ("..." : String).data.length = 3 := by decide
    omega
  · rw [htr]
    unfold pyEndsWith
    rw [String.data_append]
    exact List.isSuffixOf_iff_suffix.mpr (List.suffix_append _ _)
  · intro t hroom
    unfold MeetingSummaryTracker.add_note
    rw [if_neg (Nat.not_le.mpr hroom)]

set_option maxRecDepth 12000 in
/-- Witness for C4 (amended) at a concrete 150-character note. -/
theorem truncate_note_bound_witness :
    140 < pyLen (String.mk (List.replicate 150 'x')) ∧
    pyLen (_truncate_text (String.mk (List.replicate 150 'x')) 140) ≤ 140 ∧
    pyEndsWith (_truncate_text (String.mk (List.replicate 150 'x')) 140) "..." = true :=
  ⟨by decide,
   (truncate_note_bound _ (by decide)).1,
   (truncate_note_bound _ (by decide)).2.1⟩

/-! ## Claim C1 -/

theorem update_from_params_sent (t : MeetingSummaryTracker)
    (params : Option (List (String × Json))) :
    (t.update_from_params params).summary_sent = t.summary_sent := by
  unfold MeetingSummaryTracker.update_from_params
  split <;> rfl

theorem build_summary_params_sent (t : MeetingSummaryTracker) (ended_at : String) :
    (t.build_summary_params ended_at).1.summary_sent = t.summary_sent := by
  unfold MeetingSummaryTracker.build_summary_params
  split <;> rfl

theorem record_send_summary_sent (t : MeetingSummaryTracker)
    (params : Option (List (String × Json))) (r : Json) :
    (t.record_tool_result "send_meeting_summary" params r).summary_sent =
      (t.summary_sent || !_result_is_error r) := by
  unfold MeetingSummaryTracker.record_tool_result
  by_cases herr : _result_is_error r
  · simp [herr]
  · simp [herr]

theorem dispatchRun_sent_noop (endedAts : Nat → String) (results : Nat → Json) :
    ∀ (n : Nat) (t : MeetingSummaryTracker), t.summary_sent = true →
      dispatchRun endedAts results n t = (t, []) := by
  intro n
  induction n with
  | zero => intro t ht; rfl
  | succ n ih =>
      intro t ht
      have hstep : sendIfNeededOnce t (endedAts n) (results n) = (t, none) := by
        unfold sendIfNeededOnce
        simp [ht]
      simp [dispatchRun, hstep, ih t ht]

theorem dispatchRun_spec (endedAts : Nat → String) (results : Nat → Json) :
    ∀ (n : Nat) (t : MeetingSummaryTracker),
      (dispatchRun endedAts results n t).2.countP (fun r => !_result_is_error r) ≤ 1 ∧
      (dispatchRun endedAts results n t).1.summary_sent =
        (t.summary_sent || (dispatchRun endedAts results n t).2.any
          (fun r => !_result_is_error r)) := by
  intro n
  induction n with
  | zero => intro t; simp [dispatchRun]
  | succ n ih =>
      intro t
      by_cases ht : t.summary_sent = true
      · rw [dispatchRun_sent_noop endedAts results (n + 1) t ht]
        simp [ht]
      · have htf : t.summary_sent = false := by
          cases hcb : t.summary_sent
          · rfl
          · exact absurd hcb ht
        have hrun : dispatchRun endedAts results (n + 1) t =
            ((dispatchRun endedAts results n
                (sendIfNeededOnce t (endedAts n) (results n)).1).1,
             (sendIfNeededOnce t (endedAts n) (results n)).2.toList ++
             (dispatchRun endedAts results n
                (sendIfNeededOnce t (endedAts n) (results n)).1).2) := rfl
        cases hbp : t.build_summary_params (endedAts n) with
        | mk t1 opt =>
          have ht1 : t1.summary_sent = false := by
            have h2 := build_summary_params_sent t (endedAts n)
            rw [hbp] at h2
            rw [h2, htf]
          cases opt with
          | none =>
              have hstep : sendIfNeededOnce t (endedAts n) (results n) = (t1, none) := by
                unfold sendIfNeededOnce
                rw [htf]
                simp [hbp]
              obtain ⟨ihc, ihs⟩ := ih t1
              rw [hrun, hstep]
              simp only [Option.toList_none, List.nil_append]
              exact ⟨ihc, by rw [ihs, ht1, htf]⟩
          | some ps =>
              have hstep : sendIfNeededOnce t (endedAts n) (results n) =
                  ((t1.update_from_params (some ps)).record_tool_result
                    "send_meeting_summary" (some ps) (results n), some (results n)) := by
                unfold sendIfNeededOnce
                rw [htf]
                simp [hbp]
              have ht3 : ((t1.update_from_params (some ps)).record_tool_result
                  "send_meeting_summary" (some ps) (results n)).summary_sent =
                  !_result_is_error (results n) := by
                rw [record_send_summary_sent, update_from_params_sent, ht1, Bool.false_or]
              by_cases hres : _result_is_error (results n) = true
              · have ht3f : ((t1.update_from_params (some ps)).record_tool_result
                    "send_meeting_summary" (some ps) (results n)).summary_sent = false := by
                  rw [ht3, hres]
                  rfl
                obtain ⟨ihc, ihs⟩ := ih ((t1.update_from_params (some ps)).record_tool_result
                    "send_meeting_summary" (some ps) (results n))
                rw [hrun, hstep]
                constructor
                · simp only [Option.toList_some, List.singleton_append, List.countP_cons]
                  simp [hres, ihc]
                · simp only [Option.toList_some, List.singleton_append, List.any_cons]
                  rw [ihs, ht3f, htf]
                  simp [hres]
              · have hresf : _result_is_error (results n) = false := by
                  cases hcb : _result_is_error (results n)
                  · rfl
                  · exact absurd hcb hres
                have ht3t : ((t1.update_from_params (some ps)).record_tool_result
                    "send_meeting_summary" (some ps) (results n)).summary_sent = true := by
                  rw [ht3, hresf]
                  rfl
                rw [hrun, hstep]
                rw [dispatchRun_sent_noop endedAts results n _ ht3t]
                simp [hresf, htf, ht3t]

/-- A tracker whose identity (`project_id` and `meeting_id`) is fully
populated and whose summary is not yet sent. -/
def populatedTracker : MeetingSummaryTracker :=
  { project_id := some "p-1", meeting_id := some "m-7", meeting_title := none,
    meeting_started_at := none, notes := [], action_items := [],
    summary_sent := false, summary_blocked := false, max_notes := 5,
    max_action_items := 5 }

/-- Counterexample to C1 as stated: two serialized `send_if_needed`
invocations against a fully populated tracker whose every send attempt
returns an error-shaped result leave `summary_sent` false afterwards (the
claim asserts the flag is true after N ≥ 2 concurrent calls). -/
theorem send_if_needed_sent_counterexample :
    optFalsy populatedTracker.project_id = false ∧
    optFalsy populatedTracker.meeting_id = false ∧
    (dispatchRun (fun _ => "2024-05-01T10:00:00Z")
        (fun _ => errObj "PCC request timed out.") 2 populatedTracker).1.summary_sent
      = false := by
  refine ⟨rfl, rfl, ?_⟩
  rfl

/-- C1 (amended): N ≥ 2 `send_if_needed` calls racing on the dispatcher
lock execute their bodies serially; over any such serial execution at most
one send attempt yields a non-error result (at most one non-error delivery
reaches the sending channel), and the tracker's `sent` flag is true
afterwards if and only if it was already true or some attempt's result was
non-error — in particular a run in which every send fails leaves the flag
false so a later trigger may retry. -/
theorem send_if_needed_at_most_once (t : MeetingSummaryTracker)
    (endedAts : Nat → String) (results : Nat → Json) (N : Nat) (hN : 2 ≤ N)
    (hp : optFalsy t.project_id = false) (hm : optFalsy t.meeting_id = false) :
    (dispatchRun endedAts results N t).2.countP (fun r => !_result_is_error r) ≤ 1 ∧
    (dispatchRun endedAts results N t).1.summary_sent =
      (t.summary_sent || (dispatchRun endedAts results N t).2.any
        (fun r => !_result_is_error r)) :=
  dispatchRun_spec endedAts results N t

/-- Witness for C1 (amended): two serialized calls with a succeeding
channel make at most one non-error delivery, and the flag is true. -/
theorem send_if_needed_at_most_once_witness :
    (2 ≤ 2) ∧
    (dispatchRun (fun _ => "2024-05-01T10:00:00Z")
        (fun _ => Json.obj [("status", Json.str "queued")]) 2 populatedTracker).2.countP
      (fun r => !_result_is_error r) ≤ 1 ∧
    (dispatchRun (fun _ => "2024-05-01T10:00:00Z")
        (fun _ => Json.obj [("status", Json.str "queued")]) 2 populatedTracker).1.summary_sent
      = (populatedTracker.summary_sent ||
         (dispatchRun (fun _ => "2024-05-01T10:00:00Z")
            (fun _ => Json.obj [("status", Json.str "queued")]) 2 populatedTracker).2.any
          (fun r => !_result_is_error r)) :=
  ⟨by decide,
   send_if_needed_at_most_once populatedTracker _ _ 2 (by decide) rfl rfl⟩

/-! ## Claim C5 -/

theorem pyLower_eq_empty_iff (s : String) : pyLower s = "" ↔ s = "" := by
  unfold pyLower
  constructor
  · intro h
    have hd : (String.mk (s.data.map Char.toLower)).data = ("" : String).data := by rw [h]
    simp only [List.map_eq_nil_iff] at hd
    apply String.ext
    simp [hd]
  · intro h
    rw [h]
    rfl

theorem head_filter_eq_find (p : Json → Bool) (l : List Json) :
    (l.filter p).head? = l.find? p := by
  induction l with
  | nil => rfl
  | cons a l ih =>
      by_cases hp : p a
      · simp [List.filter_cons, hp, List.find?_cons_of_pos, ih]
      · simp [List.filter_cons, hp, List.find?_cons_of_neg, ih]

/-- C5: for every list of project summaries and every query that survives
the client's non-empty validation, the lookup returns the first exact
case-insensitive match on id or name when one exists anywhere in the list,
falls back to the first case-insensitive substring match only when no
exact match exists, and when neither exists `get_project_status` fails
with the "not found" error carrying status code 404. -/
theorem select_project_lookup (projects : List Json) (query : String)
    (hq : pyStrip query ≠ "") :
    (_select_project_summary projects query =
      match projects.find? (exactMatchB (_normalize query)) with
      | some m => some m
      | none => projects.find? (substringMatchB (_normalize query))) ∧
    (projects.find? (exactMatchB (_normalize query)) = none →
     projects.find? (substringMatchB (_normalize query)) = none →
     PccClient.get_project_status query (Except.ok (Json.arr projects)) =
       Except.error ⟨"Project " ++ squote ++ query ++ squote ++ " not found.",
         some 404⟩) := by
  have hnorm : _normalize query ≠ "" := by
    unfold _normalize
    intro h
    exact hq ((pyLower_eq_empty_iff _).mp h)
  have hsel : _select_project_summary projects query =
      match projects.find? (exactMatchB (_normalize query)) with
      | some m => some m
      | none => projects.find? (substringMatchB (_normalize query)) := by
    unfold _select_project_summary
    rw [if_neg hnorm]
    dsimp only
    rw [head_filter_eq_find]
  refine ⟨hsel, ?_⟩
  intro hex hsub
  have hnone : _select_project_summary projects query = none := by
    rw [hsel, hex]
    exact hsub
  unfold PccClient.get_project_status
  rw [if_neg hq]
  simp [hnone]

/-- Witness for C5: a query matching nothing in an empty project list
produces the 404 "not found" error. -/
theorem select_project_lookup_witness :
    pyStrip "alpha" ≠ "" ∧
    PccClient.get_project_status "alpha" (Except.ok (Json.arr [])) =
      Except.error ⟨"Project " ++ squote ++ "alpha" ++ squote ++ " not found.",
        some 404⟩ :=
  ⟨by decide, (select_project_lookup [] "alpha" (by decide)).2 rfl rfl⟩

/-! ## Claim C7 -/

/-- Counterexample to C7 as stated: the empty parameter object is missing
every required field, yet the callback returns the generic
`"Action item details are required."` error (no network call either way),
not the claimed `"project_id, meeting_id, and title are required."`. -/
theorem create_action_item_empty_params_counterexample :
    (create_action_item_tool [] "2024-05-01T10:00:00Z" (fun _ => Except.ok Json.null)
        (some [])).1 = errObj "Action item details are required." ∧
    errObj "Action item details are required." ≠
      errObj "project_id, meeting_id, and title are required." ∧
    (create_action_item_tool [] "2024-05-01T10:00:00Z" (fun _ => Except.ok Json.null)
        (some [])).2 = [] := by
  refine ⟨rfl, ?_, rfl⟩
  intro h
  simp [errObj] at h

/-- C7 (amended): for every **non-empty** parameter object missing a
required field (no coercible `project_id`/`project`, `meeting_id`/`meeting`
or `title`/`summary`), `create_action_item` returns exactly
`{"error": "project_id, meeting_id, and title are required."}` and no
network call is attempted; an empty or absent parameter object also makes
no network call but returns `{"error": "Action item details are
required."}`. -/
theorem create_action_item_missing_required (default_attendee_list : List String)
    (now : String) (net : NetEnv) (kvs : List (String × Json)) (hne : kvs ≠ [])
    (hmiss : _coerce_str (_get_param (some kvs) ["project_id", "project"]) = none ∨
             _coerce_str (_get_param (some kvs) ["meeting_id", "meeting"]) = none ∨
             _coerce_str (_get_param (some kvs) ["title", "summary"]) = none) :
    create_action_item_tool default_attendee_list now net (some kvs) =
      (errObj "project_id, meeting_id, and title are required.", []) := by
  unfold create_action_item_tool
  have hfal : paramsFalsy (some kvs) = false := by
    simp [paramsFalsy, hne]
  have hcond : ((_coerce_str (_get_param (some kvs) ["project_id", "project"])).isNone ||
      (_coerce_str (_get_param (some kvs) ["meeting_id", "meeting"])).isNone ||
      (_coerce_str (_get_param (some kvs) ["title", "summary"])).isNone) = true := by
    rcases hmiss with h | h | h <;> simp [h]
  rw [hfal, hcond]
  simp

/-- Witness for C7 (amended): params carrying only a project id produce
the required-fields error without any network call. -/
theorem create_action_item_missing_required_witness :
    (([("project_id", Json.str "p-1")] : List (String × Json)) ≠ []) ∧
    create_action_item_tool [] "2024-05-01T10:00:00Z" (fun _ => Except.ok Json.null)
        (some [("project_id", Json.str "p-1")]) =
      (errObj "project_id, meeting_id, and title are required.", []) :=
  ⟨fun h => List.noConfusion h,
   create_action_item_missing_required [] "2024-05-01T10:00:00Z"
     (fun _ => Except.ok Json.null) [("project_id", Json.str "p-1")]
     (fun h => List.noConfusion h) (Or.inr (Or.inl rfl))⟩

/-! ## Claim C8 -/

theorem result_is_error_errObj (msg : String) (h : pyStrip msg ≠ "") :
    _result_is_error (errObj msg) = true := by
  unfold _result_is_error errObj pyGet lookupKey
  simp [h]

/-- Whether a work-order creation response carries a coercible `"id"`. -/
def hasWorkOrderId : Json → Bool
  | .obj ckvs => (_coerce_str (pyGet ckvs "id")).isSome
  | _ => false

/-- C8: when a `create_action_item` invocation takes the work-order path
with valid required fields and the creation call succeeds but its response
is not a mapping or lacks an extractable id, the tool returns a structured
error result and never attempts the follow-up patch call. -/
theorem create_action_item_missing_id (default_attendee_list : List String)
    (now : String) (net : NetEnv) (kvs : List (String × Json))
    (p m ti : String) (created : Json)
    (hp : _coerce_str (_get_param (some kvs) ["project_id", "project"]) = some p)
    (hm : _coerce_str (_get_param (some kvs) ["meeting_id", "meeting"]) = some m)
    (hti : _coerce_str (_get_param (some kvs) ["title", "summary"]) = some ti)
    (hat : (_coerce_str (_get_param (some kvs)
        ["action_type", "type", "mode"])).getD "work_order" = "work_order")
    (hnet : ∀ q d, net (NetCall.createWorkOrder q d) = Except.ok created)
    (hid : hasWorkOrderId created = false) :
    _result_is_error
      (create_action_item_tool default_attendee_list now net (some kvs)).1 = true ∧
    ∀ c ∈ (create_action_item_tool default_attendee_list now net (some kvs)).2,
      c.isPatch = false := by
  have hfal : paramsFalsy (some kvs) = false := coerce_str_not_falsy hp
  have hps : pyStrip p ≠ "" := (coerce_str_spec hp).2
  unfold create_action_item_tool
  rw [hfal]
  simp only [Bool.false_eq_true, if_false, hp, hm, hti, Option.isNone_some,
    Bool.or_self, Bool.or_false, Bool.false_or, Option.getD_some, hat]
  rw [if_neg (by decide : ¬("work_order" ∉ ACTION_ITEM_TYPES))]
  rw [if_neg (by decide : ¬(("work_order" : String) = "communication"))]
  unfold PccClient.create_work_order
  rw [if_neg hps]
  simp only [hnet]
  cases created with
  | obj ckvs =>
      have hidn : _coerce_str (pyGet ckvs "id") = none := by
        have h2 : (_coerce_str (pyGet ckvs "id")).isSome = false := by
          simpa [hasWorkOrderId] using hid
        cases hc : _coerce_str (pyGet ckvs "id") with
        | none => rfl
        | some v =>
            rw [hc] at h2
            simp at h2
      simp only [hidn]
      refine ⟨result_is_error_errObj _ (by decide), ?_⟩
      intro c hc
      rw [List.mem_singleton] at hc
      subst hc
      rfl
  | null =>
      refine ⟨result_is_error_errObj _ (by decide), ?_⟩
      intro c hc
      rw [List.mem_singleton] at hc
      subst hc
      rfl
  | bool b =>
      refine ⟨result_is_error_errObj _ (by decide), ?_⟩
      intro c hc
      rw [List.mem_singleton] at hc
      subst hc
      rfl
  | int n =>
      refine ⟨result_is_error_errObj _ (by decide), ?_⟩
      intro c hc
      rw [List.mem_singleton] at hc
      subst hc
      rfl
  | str s =>
      refine ⟨result_is_error_errObj _ (by decide), ?_⟩
      intro c hc
      rw [List.mem_singleton] at hc
      subst hc
      rfl
  | arr xs =>
      refine ⟨result_is_error_errObj _ (by decide), ?_⟩
      intro c hc
      rw [List.mem_singleton] at hc
      subst hc
      rfl

/-- A stub network whose work-order creation succeeds but returns a
mapping with no `"id"` field. -/
def stubNetMissingId : NetEnv := fun c =>
  match c with
  | NetCall.createWorkOrder _ _ => Except.ok (Json.obj [])
  | _ => Except.ok Json.null

/-- Witness for C8: a successful creation response without an id yields an
error result and no patch request. -/
theorem create_action_item_missing_id_witness :
    _result_is_error
      (create_action_item_tool [] "2024-05-01T10:00:00Z" stubNetMissingId
        (some [("project_id", Json.str "p-1"), ("meeting_id", Json.str "m-7"),
               ("title", Json.str "Follow up")])).1 = true ∧
    ∀ c ∈ (create_action_item_tool [] "2024-05-01T10:00:00Z" stubNetMissingId
        (some [("project_id", Json.str "p-1"), ("meeting_id", Json.str "m-7"),
               ("title", Json.str "Follow up")])).2, c.isPatch = false :=
  create_action_item_missing_id [] "2024-05-01T10:00:00Z" stubNetMissingId
    [("project_id", Json.str "p-1"), ("meeting_id", Json.str "m-7"),
     ("title", Json.str "Follow up")] "p-1" "m-7" "Follow up" (Json.obj [])
    rfl rfl rfl rfl (fun q d => rfl) rfl

/-! ## Claim C9 -/

/-- Counterexample to C9 as stated: `summarize_participants` applied to a
non-mapping value (here a list) raises `AttributeError` — it does not
return the empty-string message. -/
theorem summarize_participants_raises :
    summarize_participants (Json.arr []) =
      Except.error "AttributeError: value has no attribute get" ∧
    summarize_participants (Json.arr []) ≠ Except.ok "" := by
  refine ⟨rfl, ?_⟩
  intro h
  exact Except.noConfusion h

/-- C9 (amended): `summarize_global_context` returns the fixed unavailable
message for every input that is not a mapping or whose `"projects"` value
is not a list; `summarize_participants` returns the empty message for
every **mapping** input whose `"participants"` value is not a list, but
raises (`AttributeError`) on non-mapping input. -/
theorem summarizers_unexpected_shape :
    (∀ context : Json,
      (match context with
       | Json.obj kvs => (pyGet kvs "projects").isArr = false
       | _ => True) →
      summarize_global_context context = "Global context is unavailable.") ∧
    (∀ kvs : List (String × Json), (pyGet kvs "participants").isArr = false →
      summarize_participants (Json.obj kvs) = Except.ok "") := by
  constructor
  · intro context h
    unfold summarize_global_context
    cases context with
    | obj kvs =>
        dsimp only
        cases hg : pyGet kvs "projects" with
        | arr xs =>
            dsimp only at h
            rw [hg] at h
            simp [Json.isArr] at h
        | null => rfl
        | bool b => rfl
        | int n => rfl
        | str s => rfl
        | obj o => rfl
    | null => rfl
    | bool b => rfl
    | int n => rfl
    | str s => rfl
    | arr xs => rfl
  · intro kvs h
    unfold summarize_participants
    dsimp only
    cases hg : pyGet kvs "participants" with
    | arr xs =>
        rw [hg] at h
        simp [Json.isArr] at h
    | null => rfl
    | bool b => rfl
    | int n => rfl
    | str s => rfl
    | obj o => rfl

/-- Witness for C9 (amended): a string input to the global summarizer and
a mapping whose participants value is a string. -/
theorem summarizers_unexpected_shape_witness :
    summarize_global_context (Json.str "oops") = "Global context is unavailable." ∧
    summarize_participants (Json.obj [("participants", Json.str "nope")]) =
      Except.ok "" :=
  ⟨summarizers_unexpected_shape.1 (Json.str "oops") trivial,
   summarizers_unexpected_shape.2 [("participants", Json.str "nope")] rfl⟩

/-! ## Claim C10 -/

/-- C10: when the email sequence contains no non-empty strings after
trimming (empty sequence, non-string entries, whitespace-only strings),
`resolve_people_by_emails` returns `{"participants": []}` without issuing
any HTTP request; and when the request is made but the server response is
not a mapping, it likewise returns `{"participants": []}` instead of the
raw response. -/
theorem resolve_people_spec (emails : List Json) (project_id : Option String)
    (net : NetEnv) :
    (cleanedEmails emails = [] →
      PccClient.resolve_people_by_emails emails project_id net =
        (Except.ok (Json.obj [("participants", Json.arr [])]), [])) ∧
    (∀ r : Json, cleanedEmails emails ≠ [] →
      net (NetCall.resolvePeople (Json.obj ([("emails",
          Json.arr ((cleanedEmails emails).map Json.str))] ++
        (match project_id with
          | some p => if p = "" then [] else [("project_id", Json.str p)]
          | none => [])))) = Except.ok r →
      r.isObj = false →
      PccClient.resolve_people_by_emails emails project_id net =
        (Except.ok (Json.obj [("participants", Json.arr [])]),
         [NetCall.resolvePeople (Json.obj ([("emails",
            Json.arr ((cleanedEmails emails).map Json.str))] ++
          (match project_id with
            | some p => if p = "" then [] else [("project_id", Json.str p)]
            | none => [])))])) := by
  constructor
  · intro h
    unfold PccClient.resolve_people_by_emails
    dsimp only
    rw [h]
    rfl
  · intro r hne hnet hobj
    unfold PccClient.resolve_people_by_emails
    dsimp only
    have hie : (cleanedEmails emails).isEmpty = false := by
      cases hxe : (cleanedEmails emails).isEmpty
      · rfl
      · exact absurd (List.isEmpty_iff.mp hxe) hne
    rw [hie]
    simp only [Bool.false_eq_true, if_false]
    rw [hnet]
    cases r with
    | obj kvs => simp [Json.isObj] at hobj
    | null => rfl
    | bool b => rfl
    | int n => rfl
    | str s => rfl
    | arr xs => rfl

/-- Witness for C10: whitespace-only and non-string entries clean to an
empty list, so no request is issued and `{"participants": []}` returned;
a non-mapping server response is also replaced by `{"participants": []}`. -/
theorem resolve_people_spec_witness :
    cleanedEmails [Json.str "   ", Json.int 5] = [] ∧
    PccClient.resolve_people_by_emails [Json.str "   ", Json.int 5] none
        (fun _ => Except.ok Json.null) =
      (Except.ok (Json.obj [("participants", Json.arr [])]), []) ∧
    PccClient.resolve_people_by_emails [Json.str "ada@example.com"] none
        (fun _ => Except.ok (Json.arr [])) =
      (Except.ok (Json.obj [("participants", Json.arr [])]),
       [NetCall.resolvePeople (Json.obj [("emails",
          Json.arr [Json.str "ada@example.com"])])]) := by
  refine ⟨rfl, (resolve_people_spec _ none _).1 rfl, ?_⟩
  have h2 := (resolve_people_spec [Json.str "ada@example.com"] none
      (fun _ => Except.ok (Json.arr []))).2 (Json.arr [])
      (fun h => List.noConfusion h) rfl rfl
  simpa using h2
